import Mathlib

/-!
Verification of the trivia backend's request-handling and selection logic
(`backend/flaskr/__init__.py`): pagination, category aggregation, search
filtering, question creation, and the quiz's non-repeating random selection.

The stateful parts are embedded as pure functions over explicit inputs:
the store's query results become `List Question` / `List Category`
arguments, the random source becomes an explicit stream `rand : Nat → Nat`
(the k-th call to `random.randint(1, n)` yields `rand k % n + 1`, a value
in `[1, n]` exactly as `randint` guarantees; `randint(1, 0)` raises
`ValueError`, modelled as an explicit error result), and the unbounded
`while` loop takes a fuel parameter.
-/

namespace Trivia

/-- A stored trivia question record. The store's `category` column is kept
as its string representation (the endpoint filters it against
`str(category)` and the formatted output is its string form). -/
structure Question where
  id : Nat
  question : String
  answer : String
  difficulty : Nat
  category : String
  deriving Repr, DecidableEq

/-- A stored category record: an id and a display name (`type`). -/
structure Category where
  id : Nat
  type : String
  deriving Repr, DecidableEq

/-- The wire-shaped projection of a question used in listing responses. -/
structure FormattedQuestion where
  id : Nat
  question : String
  answer : String
  difficulty : Nat
  category : String
  deriving Repr, DecidableEq

/-- Modelled from the spec: `Question.format` lives in `models.py`, which is
not among the provided sources. The spec describes it as "a plain mapping of
these five fields with `category` coerced to its string representation";
since the stored `category` is modelled as its string form already, the
coercion is the identity on that field. -/
def Question.format (q : Question) : FormattedQuestion :=
  ⟨q.id, q.question, q.answer, q.difficulty, q.category⟩

/-- Embedding of `paginate_questions(request, selection)`: reads the 1-based
page number, computes `start = (page - 1) * 10`, formats the selection and
returns the slice `questions[start:start+10]`. -/
def paginate_questions (page : Nat) (selection : List Question) :
    List FormattedQuestion :=
  let start := (page - 1) * 10
  let questions := selection.map Question.format
  (questions.drop start).take 10

/-- Slicing identity behind pagination: the first `m` elements followed by
the next `k` elements are the first `m + k` elements. -/
theorem take_append_take_drop (m k : Nat) (l : List α) :
    l.take m ++ (l.drop m).take k = l.take (m + k) := by
  have h1 : l.take m = (l.take (m + k)).take m := by
    rw [List.take_take, Nat.min_eq_left (Nat.le_add_right m k)]
  rw [List.take_drop, h1]
  exact List.take_append_drop m (l.take (m + k))

/-- Concatenating the first `n` pages of size 10 yields the first `10 * n`
elements. -/
theorem pages_join (l : List α) (n : Nat) :
    ((List.range n).map (fun i => (l.drop (10 * i)).take 10)).flatten
      = l.take (10 * n) := by
  induction n with
  | zero => simp
  | succ n ih =>
    rw [List.range_succ, List.map_append, List.flatten_append]
    simp only [List.map_cons, List.map_nil, List.flatten_cons, List.flatten_nil,
      List.append_nil, ih]
    rw [take_append_take_drop, Nat.mul_succ]

/-- C5: for every page `page ≥ 1` the page returned by `paginate_questions`
has at most 10 entries, and concatenating the pages for page = 1, 2, ...
(any `n` pages with `10 * n` covering the collection) reconstructs the
original formatted sequence. -/
theorem paginate_bound_and_reconstruct (selection : List Question)
    (page : Nat) (_hpage : 1 ≤ page) :
    (paginate_questions page selection).length ≤ 10 ∧
    ∀ n : Nat, (selection.map Question.format).length ≤ 10 * n →
      ((List.range n).map (fun i => paginate_questions (i + 1) selection)).flatten
        = selection.map Question.format := by
  constructor
  · simp [paginate_questions,
      List.length_take_le 10 ((selection.map Question.format).drop ((page - 1) * 10))]
  · intro n hn
    have hform : ∀ i : Nat, paginate_questions (i + 1) selection
        = ((selection.map Question.format).drop (10 * i)).take 10 := by
      intro i
      simp [paginate_questions, Nat.mul_comm]
    calc ((List.range n).map (fun i => paginate_questions (i + 1) selection)).flatten
        = ((List.range n).map
            (fun i => ((selection.map Question.format).drop (10 * i)).take 10)).flatten := by
          simp only [hform]
      _ = (selection.map Question.format).take (10 * n) :=
          pages_join (selection.map Question.format) n
      _ = selection.map Question.format := List.take_of_length_le hn

/-- Witness for C5 at a concrete input. -/
theorem paginate_bound_and_reconstruct_witness :
    (1 : Nat) ≤ 1 ∧
    (paginate_questions 1 [⟨1, "Q1?", "A1", 1, "1"⟩]).length ≤ 10 ∧
    ((List.range 1).map
        (fun i => paginate_questions (i + 1) [⟨1, "Q1?", "A1", 1, "1"⟩])).flatten
      = [Question.format ⟨1, "Q1?", "A1", 1, "1"⟩] := by
  refine ⟨by decide, ?_, ?_⟩
  · exact (paginate_bound_and_reconstruct [⟨1, "Q1?", "A1", 1, "1"⟩] 1 (by decide)).1
  · exact (paginate_bound_and_reconstruct [⟨1, "Q1?", "A1", 1, "1"⟩] 1 (by decide)).2
      1 (by decide)

/-- Embedding of the loop body of `list_current_categories(questions)`: the
accumulator `current_categories` starts empty and each question's category
is appended the first time it is seen. -/
def list_current_categories_loop (current_categories : List String) :
    List FormattedQuestion → List String
  | [] => current_categories
  | q :: rest =>
    if q.category ∈ current_categories then
      list_current_categories_loop current_categories rest
    else
      list_current_categories_loop (current_categories ++ [q.category]) rest

/-- Embedding of `list_current_categories(questions)` from the source. -/
def list_current_categories (questions : List FormattedQuestion) : List String :=
  list_current_categories_loop [] questions

/-- Specification-side definition (for comparison with the source embedding):
keep each value's first occurrence and drop every later duplicate. -/
def firstSeen : List String → List String
  | [] => []
  | c :: rest => c :: (firstSeen rest).filter (fun d => d != c)

theorem list_current_categories_loop_eq (l : List FormattedQuestion) :
    ∀ acc : List String, list_current_categories_loop acc l
      = acc ++ (firstSeen (l.map (fun q => q.category))).filter
          (fun c => !acc.contains c) := by
  induction l with
  | nil => intro acc; simp [list_current_categories_loop, firstSeen]
  | cons q rest ih =>
    intro acc
    simp only [list_current_categories_loop, List.map_cons, firstSeen]
    by_cases h : q.category ∈ acc
    · rw [if_pos h, ih acc, List.filter_cons]
      have hc : (!acc.contains q.category) = false := by
        simp [List.contains, h]
      rw [hc]
      simp only [Bool.false_eq_true, if_false, List.filter_filter]
      refine congrArg (fun t => acc ++ t) (List.filter_congr ?_)
      intro d _
      by_cases hd : d ∈ acc
      · simp [List.contains, hd]
      · have hne : d ≠ q.category := fun he => hd (he ▸ h)
        simp [List.contains, hd, hne]
    · rw [if_neg h, ih (acc ++ [q.category]), List.filter_cons]
      have hc : (!acc.contains q.category) = true := by
        simp [List.contains, h]
      rw [hc]
      simp only [if_true, List.append_assoc, List.singleton_append,
        List.filter_filter]
      refine congrArg (fun t => acc ++ q.category :: t) (List.filter_congr ?_)
      intro d _
      by_cases hd : d = q.category
      · subst hd; simp [List.contains]
      · by_cases hd2 : d ∈ acc <;> simp [List.contains, hd, hd2]

theorem firstSeen_nodup (l : List String) : (firstSeen l).Nodup := by
  induction l with
  | nil => simp [firstSeen]
  | cons c rest ih =>
    simp only [firstSeen, List.nodup_cons]
    constructor
    · intro hmem
      have := List.of_mem_filter hmem
      simp at this
    · exact List.Nodup.filter _ ih

theorem firstSeen_mem (l : List String) (c : String) :
    c ∈ firstSeen l ↔ c ∈ l := by
  induction l with
  | nil => simp [firstSeen]
  | cons d rest ih =>
    simp only [firstSeen, List.mem_cons, List.mem_filter, ih]
    by_cases h : c = d
    · simp [h]
    · simp [h, bne_iff_ne]

/-- C8: `list_current_categories` returns each distinct category exactly
once (it equals the first-seen deduplication of the categories, contains no
duplicates, and has the same members), and on the spec's example input with
categories `["2", "1", "2", "3"]` it returns `["2", "1", "3"]`. -/
theorem current_categories_first_seen (questions : List FormattedQuestion) :
    list_current_categories questions
        = firstSeen (questions.map (fun q => q.category)) ∧
    (list_current_categories questions).Nodup ∧
    (∀ c, c ∈ list_current_categories questions ↔
        c ∈ questions.map (fun q => q.category)) ∧
    list_current_categories
        [⟨1, "q1", "a1", 1, "2"⟩, ⟨2, "q2", "a2", 1, "1"⟩,
         ⟨3, "q3", "a3", 1, "2"⟩, ⟨4, "q4", "a4", 1, "3"⟩]
      = ["2", "1", "3"] := by
  have heq : list_current_categories questions
      = firstSeen (questions.map (fun q => q.category)) := by
    rw [list_current_categories, list_current_categories_loop_eq questions []]
    simp
  refine ⟨heq, ?_, ?_, by decide⟩
  · rw [heq]; exact firstSeen_nodup _
  · intro c; rw [heq]; exact firstSeen_mem _ c

/-- Witness for C8: the membership characterisation evaluated concretely. -/
theorem current_categories_first_seen_witness :
    ("1" ∈ list_current_categories
        [⟨1, "q1", "a1", 1, "2"⟩, ⟨2, "q2", "a2", 1, "1"⟩] ↔
      "1" ∈ ([⟨1, "q1", "a1", 1, "2"⟩, ⟨2, "q2", "a2", 1, "1"⟩] :
        List FormattedQuestion).map (fun q => q.category)) :=
  (current_categories_first_seen
    [⟨1, "q1", "a1", 1, "2"⟩, ⟨2, "q2", "a2", 1, "1"⟩]).2.2.1 "1"

/-- Lowercasing of a string modelled on its character sequence: Python's
`str.lower()` maps every character to its lowercase form. -/
def lowerChars (s : String) : List Char := s.data.map Char.toLower

/-- Python's `search_term.lower() in question.question.lower()`: the
lowercased term is a contiguous substring of the lowercased question text,
checked on the character sequences. -/
def matchesTerm (search_term : String) (q : Question) : Bool :=
  decide (lowerChars search_term <:+: lowerChars q.question)

/-- Embedding of the search branch's filtering loop in `post_question`
(reads the question list, appends each question whose lowercased text
contains the lowercased term). -/
def search_filter (search_term : String) : List Question → List Question
  | [] => []
  | q :: rest =>
    if matchesTerm search_term q then q :: search_filter search_term rest
    else search_filter search_term rest

theorem search_filter_eq_filter (search_term : String) (questions : List Question) :
    search_filter search_term questions = questions.filter (matchesTerm search_term) := by
  induction questions with
  | nil => rfl
  | cons q rest ih =>
    simp only [search_filter, List.filter_cons]
    by_cases h : matchesTerm search_term q <;> simp [h, ih]

/-- C7: the search filter keeps exactly the questions whose lowercased text
contains the lowercased term as a substring, preserving the input order
(the output is a sublist of the input), and the empty term keeps every
question. -/
theorem search_filter_spec (search_term : String) (questions : List Question) :
    (∀ q, q ∈ search_filter search_term questions ↔
        q ∈ questions ∧ lowerChars search_term <:+: lowerChars q.question) ∧
    (search_filter search_term questions).Sublist questions ∧
    search_filter "" questions = questions := by
  refine ⟨?_, ?_, ?_⟩
  · intro q
    rw [search_filter_eq_filter, List.mem_filter, matchesTerm, decide_eq_true_eq]
  · rw [search_filter_eq_filter]
    exact List.filter_sublist questions
  · rw [search_filter_eq_filter]
    have hall : ∀ q ∈ questions, matchesTerm "" q = true := by
      intro q _
      rw [matchesTerm, decide_eq_true_eq]
      have hnil : lowerChars "" = ([] : List Char) := by decide
      rw [hnil]
      exact List.nil_infix
    exact List.filter_eq_self.mpr hall

/-- Witness for C7: the spec's case-insensitivity example, a term the
question does not contain, and the empty term, all evaluated concretely. -/
theorem search_filter_spec_witness :
    (⟨1, "What is Q1?", "A1", 1, "1"⟩ ∈
        search_filter "q1" [⟨1, "What is Q1?", "A1", 1, "1"⟩] ↔
      (⟨1, "What is Q1?", "A1", 1, "1"⟩ : Question) ∈
          [(⟨1, "What is Q1?", "A1", 1, "1"⟩ : Question)] ∧
        lowerChars "q1" <:+: lowerChars "What is Q1?") ∧
    search_filter "" [⟨1, "What is Q1?", "A1", 1, "1"⟩]
      = [⟨1, "What is Q1?", "A1", 1, "1"⟩] :=
  ⟨(search_filter_spec "q1" [⟨1, "What is Q1?", "A1", 1, "1"⟩]).1 _,
   (search_filter_spec "" [⟨1, "What is Q1?", "A1", 1, "1"⟩]).2.2⟩

/-- Success body of the search branch of `POST /questions`. -/
structure SearchResponse where
  success : Bool
  questions : List FormattedQuestion
  total_questions : Nat
  current_category : List String
  deriving Repr, DecidableEq

/-- Embedding of the search branch of `post_question` (taken when
`searchTerm` is present and non-null): filter all stored questions by the
term, format them, and build the body; `current_category` is built by a
loop that appends every matching question's category (no deduplication)
and `total_questions` is the number of matches. -/
def post_question_search (allQuestions : List Question) (search_term : String) :
    SearchResponse :=
  let filtered_questions := search_filter search_term allQuestions
  let questions_formatted := filtered_questions.map Question.format
  let current_categories := questions_formatted.map (fun q => q.category)
  { success := true
    questions := questions_formatted
    total_questions := questions_formatted.length
    current_category := current_categories }

/-- C10: the search response's `current_category` lists one entry per
matching question — each match's category string, in match order, with
duplicates retained — and `total_questions` counts the matches (the length
of `current_category` and of the matched list), not the stored questions. -/
theorem search_response_categories_and_total (allQuestions : List Question)
    (search_term : String) :
    (post_question_search allQuestions search_term).current_category
        = (search_filter search_term allQuestions).map (fun q => q.category) ∧
    (post_question_search allQuestions search_term).total_questions
        = (search_filter search_term allQuestions).length ∧
    (post_question_search allQuestions search_term).current_category.length
        = (post_question_search allQuestions search_term).total_questions := by
  refine ⟨?_, by simp [post_question_search], by simp [post_question_search]⟩
  simp only [post_question_search, List.map_map]
  rfl

/-- Ways the create branch of `post_question` can fail: `unprocessable` is
the explicit `abort(422)` for an empty question or answer;
`attributeError` models the exception raised by
`Category.query.filter_by(id=category_id).first().type` when no category
record has the requested id (`first()` yields `None` and the `.type`
attribute access raises). -/
inductive CreateError
  | unprocessable
  | attributeError
  deriving Repr, DecidableEq

/-- The `new_entry` object of the create branch's success body. -/
structure NewEntry where
  question : String
  answer : String
  difficulty : Nat
  category : String
  deriving Repr, DecidableEq

/-- Embedding of the create branch of `post_question` (taken when no
`searchTerm` key is present): abort 422 on an empty question or answer,
insert the new question (the insert precedes the category lookup and is
not conditioned on it), then build the body whose `category` is the
display name of the first category record matching `category_id` — an
attribute error when there is none. -/
def post_question_create (categories : List Category) (question answer : String)
    (difficulty : Nat) (category_id : Nat) : Except CreateError NewEntry :=
  if question = "" ∨ answer = "" then
    Except.error CreateError.unprocessable
  else
    match categories.find? (fun cat => cat.id == category_id) with
    | some cat => Except.ok ⟨question, answer, difficulty, cat.type⟩
    | none => Except.error CreateError.attributeError

/-- Truth of "the create operation succeeded and returned a body". -/
def createSucceeded (r : Except CreateError NewEntry) : Bool :=
  match r with
  | Except.ok _ => true
  | Except.error _ => false

/-- Counterexample to C3: with no category records at all, a request with
non-empty question and answer and category id 5 does not succeed — the
response construction raises (modelled `attributeError`). -/
theorem create_missing_category_fails :
    post_question_create [] "q" "a" 1 5 = Except.error CreateError.attributeError ∧
    createSucceeded (post_question_create [] "q" "a" 1 5) = false := by
  refine ⟨?_, ?_⟩ <;> rfl

/-- C3 (amended): a create request with non-empty question and answer
succeeds with the new-entry body exactly when some category record carries
the requested id; when none does, the attribute access on the absent
record raises instead of returning the body. -/
theorem create_succeeds_iff_category_exists (categories : List Category)
    (question answer : String) (difficulty : Nat) (category_id : Nat)
    (hq : question ≠ "") (ha : answer ≠ "") :
    (∀ cat, categories.find? (fun c => c.id == category_id) = some cat →
      post_question_create categories question answer difficulty category_id
        = Except.ok ⟨question, answer, difficulty, cat.type⟩) ∧
    (categories.find? (fun c => c.id == category_id) = none →
      post_question_create categories question answer difficulty category_id
        = Except.error CreateError.attributeError) := by
  have hcond : ¬ (question = "" ∨ answer = "") := by
    intro hor
    cases hor with
    | inl h => exact hq h
    | inr h => exact ha h
  constructor
  · intro cat hfind
    rw [post_question_create, if_neg hcond, hfind]
  · intro hfind
    rw [post_question_create, if_neg hcond, hfind]

/-- Witness for C3's amended theorem at a concrete store. -/
theorem create_succeeds_iff_category_exists_witness :
    ("q" : String) ≠ "" ∧ ("a" : String) ≠ "" ∧
    ([⟨3, "Science"⟩] : List Category).find? (fun c => c.id == 3)
      = some ⟨3, "Science"⟩ ∧
    post_question_create [⟨3, "Science"⟩] "q" "a" 1 3
      = Except.ok ⟨"q", "a", 1, "Science"⟩ := by
  refine ⟨by decide, by decide, by decide, ?_⟩
  exact (create_succeeds_iff_category_exists [⟨3, "Science"⟩] "q" "a" 1 3
    (by decide) (by decide)).1 ⟨3, "Science"⟩ (by decide)

/-- The `current_question` object of the quiz success body. The served
branch puts the question's numeric id here while the exhausted branch puts
the JSON empty string; `none` models that empty-string id. -/
structure CurrentQuestion where
  id : Option Nat
  question : String
  answer : String
  deriving Repr, DecidableEq

/-- Success body of `POST /quizzes`. The source's served branch includes a
`previous_questions` key while its exhausted branch does not; `none` in
`previous_questions` models the key being absent from the body. -/
structure QuizResponse where
  success : Bool
  previous_questions : Option (List Nat)
  current_question : CurrentQuestion
  deriving Repr, DecidableEq

/-- Outcome of the quiz endpoint's selection logic: a success body, the
`ValueError` that `random.randint(1, 0)` raises when the pool is empty, or
fuel exhaustion of the modelled rejection loop (the source loop would
still be drawing). -/
inductive QuizResult
  | ok (resp : QuizResponse)
  | valueError
  | fuelOut
  deriving Repr, DecidableEq

/-- The exhausted branch's body: success with an empty placeholder
question and no `previous_questions` key. -/
def empty_placeholder : QuizResponse :=
  { success := true
    previous_questions := none
    current_question := { id := none, question := "", answer := "" } }

/-- Embedding of the pool selection in `generate_quiz`:
`category = int(body.quiz_category.id) + 1` is computed first; when the
descriptor's `type` is `"click"` the pool is every stored question,
otherwise it is the stored questions whose `category` field equals
`str(category)`. -/
def quiz_pool (allQuestions : List Question) (cat_type : String) (cat_id : Int) :
    List Question :=
  let category := cat_id + 1
  if cat_type = "click" then allQuestions
  else allQuestions.filter (fun q => q.category == toString category)

/-- Embedding of the rejection-sampling `while` loop of `generate_quiz`:
the draw at step `k` is `random.randint(1, |pool|)`, modelled as
`rand k % pool.length + 1`; the loop redraws while the drawn question's id
is in `previous_questions`, and `fuel` bounds the number of draws
considered (the source loop is unbounded). Returns the final `random_id`. -/
def draw_loop (pool : List Question) (previous_questions : List Nat)
    (rand : Nat → Nat) : Nat → Nat → Option Nat
  | 0, _ => none
  | fuel + 1, k =>
    let random_id := rand k % pool.length + 1
    match pool.get? (random_id - 1) with
    | none => none
    | some q =>
      if q.id ∈ previous_questions then
        draw_loop pool previous_questions rand fuel (k + 1)
      else some random_id

/-- Embedding of `generate_quiz` after pool selection (source lines
214-238): the first `randint` runs before any length check, so an empty
pool raises `ValueError`; when pool and history sizes differ the rejection
loop picks `random_id` and the body carries the served question and the
`previous_questions` key; when the sizes are equal the body is the empty
placeholder without that key. -/
def select_question (pool : List Question) (previous_questions : List Nat)
    (rand : Nat → Nat) (fuel : Nat) : QuizResult :=
  if pool.length = 0 then
    QuizResult.valueError
  else if pool.length ≠ previous_questions.length then
    match draw_loop pool previous_questions rand fuel 0 with
    | none => QuizResult.fuelOut
    | some random_id =>
      match pool.get? (random_id - 1) with
      | none => QuizResult.fuelOut
      | some new_question =>
        QuizResult.ok
          { success := true
            previous_questions := some previous_questions
            current_question :=
              { id := some new_question.id
                question := new_question.question
                answer := new_question.answer } }
  else
    QuizResult.ok empty_placeholder

/-- Embedding of the whole `generate_quiz` endpoint body: pool selection
followed by the selection logic. -/
def generate_quiz (allQuestions : List Question) (cat_type : String)
    (cat_id : Int) (previous_questions : List Nat) (rand : Nat → Nat)
    (fuel : Nat) : QuizResult :=
  select_question (quiz_pool allQuestions cat_type cat_id)
    previous_questions rand fuel

/-- C4: with the `"click"` descriptor the pool is every stored question;
otherwise it is exactly the stored questions whose `category` field equals
the requested category id plus 1 (in its string form). -/
theorem quiz_pool_spec (allQuestions : List Question) (cat_type : String)
    (cat_id : Int) :
    (cat_type = "click" → quiz_pool allQuestions cat_type cat_id = allQuestions) ∧
    (cat_type ≠ "click" →
      ∀ q, q ∈ quiz_pool allQuestions cat_type cat_id ↔
        q ∈ allQuestions ∧ q.category = toString (cat_id + 1)) := by
  constructor
  · intro h
    simp [quiz_pool, h]
  · intro h q
    simp [quiz_pool, h, List.mem_filter, beq_iff_eq]

/-- Witness for C4: a concrete "all categories" draw and a concrete
filtered draw. -/
theorem quiz_pool_spec_witness :
    quiz_pool [⟨1, "Q1?", "A1", 1, "1"⟩] "click" 0 = [⟨1, "Q1?", "A1", 1, "1"⟩] ∧
    ((⟨1, "Q1?", "A1", 1, "1"⟩ : Question)
        ∈ quiz_pool [⟨1, "Q1?", "A1", 1, "1"⟩] "Science" 0 ↔
      (⟨1, "Q1?", "A1", 1, "1"⟩ : Question)
          ∈ [(⟨1, "Q1?", "A1", 1, "1"⟩ : Question)] ∧
        (Question.category ⟨1, "Q1?", "A1", 1, "1"⟩) = toString ((0 : Int) + 1)) :=
  ⟨(quiz_pool_spec [⟨1, "Q1?", "A1", 1, "1"⟩] "click" 0).1 rfl,
   (quiz_pool_spec [⟨1, "Q1?", "A1", 1, "1"⟩] "Science" 0).2 (by decide) _⟩

theorem draw_loop_not_previous (pool : List Question)
    (previous_questions : List Nat) (rand : Nat → Nat) :
    ∀ fuel k random_id,
      draw_loop pool previous_questions rand fuel k = some random_id →
      ∃ q, pool.get? (random_id - 1) = some q ∧ q.id ∉ previous_questions := by
  intro fuel
  induction fuel with
  | zero =>
    intro k rid h
    simp [draw_loop] at h
  | succ n ih =>
    intro k rid h
    rw [draw_loop] at h
    cases hg : pool.get? (rand k % pool.length + 1 - 1) with
    | none =>
      simp only [hg] at h
      exact Option.noConfusion h
    | some q =>
      simp only [hg] at h
      by_cases hmem : q.id ∈ previous_questions
      · rw [if_pos hmem] at h
        exact ih (k + 1) rid h
      · rw [if_neg hmem] at h
        injection h with h1
        subst h1
        exact ⟨q, hg, hmem⟩

/-- C1: whenever the history is shorter than the pool and the selection
logic returns a success body carrying a served question id, that id is not
a member of the `previous_questions` list passed in. -/
theorem quiz_no_repeat (pool : List Question) (previous_questions : List Nat)
    (rand : Nat → Nat) (fuel : Nat) (resp : QuizResponse) (qid : Nat)
    (hlen : previous_questions.length < pool.length)
    (hsel : select_question pool previous_questions rand fuel = QuizResult.ok resp)
    (hid : resp.current_question.id = some qid) :
    qid ∉ previous_questions := by
  have h0 : ¬ pool.length = 0 := by omega
  have hdiff : pool.length ≠ previous_questions.length := by omega
  rw [select_question, if_neg h0, if_pos hdiff] at hsel
  cases hdl : draw_loop pool previous_questions rand fuel 0 with
  | none =>
    simp only [hdl] at hsel
    exact QuizResult.noConfusion hsel
  | some rid =>
    simp only [hdl] at hsel
    obtain ⟨q, hq, hnotmem⟩ :=
      draw_loop_not_previous pool previous_questions rand fuel 0 rid hdl
    simp only [hq] at hsel
    cases hsel
    simp only [Option.some.injEq] at hid
    rwa [hid] at hnotmem

/-- Witness for C1: a two-question pool with question 1 already served;
the selection returns question 2, whose id is not in the history. -/
theorem quiz_no_repeat_witness :
    ([1] : List Nat).length
        < ([⟨1, "Q1?", "A1", 1, "1"⟩, ⟨2, "Q2?", "A2", 1, "1"⟩] : List Question).length ∧
    select_question [⟨1, "Q1?", "A1", 1, "1"⟩, ⟨2, "Q2?", "A2", 1, "1"⟩] [1]
        (fun k => k) 5
      = QuizResult.ok ⟨true, some [1], ⟨some 2, "Q2?", "A2"⟩⟩ ∧
    (2 : Nat) ∉ ([1] : List Nat) := by
  refine ⟨by decide, by decide, ?_⟩
  exact quiz_no_repeat [⟨1, "Q1?", "A1", 1, "1"⟩, ⟨2, "Q2?", "A2", 1, "1"⟩] [1]
    (fun k => k) 5 ⟨true, some [1], ⟨some 2, "Q2?", "A2"⟩⟩ 2
    (by decide) (by decide) rfl

/-- C6: for a pool with distinct question ids (a store invariant), a
duplicate-free history covered by the pool and strictly smaller than it,
some drawable index holds a question whose id is not in the history — and
a draw stream hitting that index makes the rejection loop return at once. -/
theorem quiz_unserved_index_exists (pool : List Question)
    (previous_questions : List Nat)
    (hids : (pool.map Question.id).Nodup)
    (_hprev : previous_questions.Nodup)
    (_hcover : ∀ pid ∈ previous_questions, ∃ q ∈ pool, q.id = pid)
    (hlen : previous_questions.length < pool.length) :
    (∃ i, i < pool.length ∧
      ∃ q, pool.get? i = some q ∧ q.id ∉ previous_questions) ∧
    (∃ rand : Nat → Nat, ∃ random_id,
      draw_loop pool previous_questions rand 1 0 = some random_id) := by
  have hnotsub : ¬ (pool.map Question.id) ⊆ previous_questions := by
    intro hsub
    have hle : (pool.map Question.id).length ≤ previous_questions.length :=
      (List.subperm_of_subset hids hsub).length_le
    rw [List.length_map] at hle
    omega
  rw [List.subset_def] at hnotsub
  push_neg at hnotsub
  obtain ⟨x, hxmem, hxnot⟩ := hnotsub
  obtain ⟨q, hqmem, hqid⟩ := List.mem_map.mp hxmem
  obtain ⟨i, hget⟩ := List.mem_iff_get.mp hqmem
  have hqnot : q.id ∉ previous_questions := by
    rw [hqid]; exact hxnot
  have hget? : pool.get? (i : Nat) = some q := by
    rw [List.get?_eq_get i.isLt]
    simpa using hget
  have hmod : (i : Nat) % pool.length = (i : Nat) := Nat.mod_eq_of_lt i.isLt
  refine ⟨⟨(i : Nat), i.isLt, q, hget?, hqnot⟩,
    ⟨fun _ => (i : Nat), (i : Nat) % pool.length + 1, ?_⟩⟩
  show draw_loop pool previous_questions (fun _ => (i : Nat)) (0 + 1) 0
    = some ((i : Nat) % pool.length + 1)
  simp only [draw_loop, hmod, Nat.add_sub_cancel, hget?]
  rw [if_neg hqnot]

/-- Witness for C6 at a concrete pool and history. -/
theorem quiz_unserved_index_exists_witness :
    (([⟨1, "Q1?", "A1", 1, "1"⟩, ⟨2, "Q2?", "A2", 1, "1"⟩] :
        List Question).map Question.id).Nodup ∧
    ([1] : List Nat).Nodup ∧
    (∀ pid ∈ ([1] : List Nat),
      ∃ q ∈ ([⟨1, "Q1?", "A1", 1, "1"⟩, ⟨2, "Q2?", "A2", 1, "1"⟩] : List Question),
        q.id = pid) ∧
    (∃ i, i < ([⟨1, "Q1?", "A1", 1, "1"⟩, ⟨2, "Q2?", "A2", 1, "1"⟩] :
          List Question).length ∧
      ∃ q, ([⟨1, "Q1?", "A1", 1, "1"⟩, ⟨2, "Q2?", "A2", 1, "1"⟩] :
          List Question).get? i = some q ∧ q.id ∉ ([1] : List Nat)) := by
  refine ⟨by decide, by decide, by decide, ?_⟩
  exact (quiz_unserved_index_exists
    [⟨1, "Q1?", "A1", 1, "1"⟩, ⟨2, "Q2?", "A2", 1, "1"⟩] [1]
    (by decide) (by decide) (by decide) (by decide)).1

/-- Counterexample to C2: with an empty pool and empty history the first
`randint` call raises `ValueError` before the exhaustion check, so the
selection does not return the placeholder success body. -/
theorem quiz_empty_pool_raises :
    select_question [] [] (fun _ => 0) 1 = QuizResult.valueError ∧
    QuizResult.valueError ≠ QuizResult.ok empty_placeholder :=
  ⟨rfl, by decide⟩

/-- C2 (amended): for a non-empty pool whose size equals the history size,
the selection returns the success body with the empty placeholder
question (the all-empty-pool case instead raises `ValueError`). -/
theorem quiz_exhausted_placeholder (pool : List Question)
    (previous_questions : List Nat) (rand : Nat → Nat) (fuel : Nat)
    (hlen : pool.length = previous_questions.length) (hne : pool ≠ []) :
    select_question pool previous_questions rand fuel
      = QuizResult.ok empty_placeholder := by
  have h0 : ¬ pool.length = 0 := by
    intro h
    exact hne (List.length_eq_zero.mp h)
  have hnn : ¬ pool.length ≠ previous_questions.length := fun hcon => hcon hlen
  rw [select_question, if_neg h0, if_neg hnn]

/-- Witness for C2's amended theorem. -/
theorem quiz_exhausted_placeholder_witness :
    ([⟨1, "Q1?", "A1", 1, "1"⟩] : List Question).length = ([7] : List Nat).length ∧
    ([⟨1, "Q1?", "A1", 1, "1"⟩] : List Question) ≠ [] ∧
    select_question [⟨1, "Q1?", "A1", 1, "1"⟩] [7] (fun _ => 0) 3
      = QuizResult.ok empty_placeholder :=
  ⟨rfl, by decide,
   quiz_exhausted_placeholder [⟨1, "Q1?", "A1", 1, "1"⟩] [7] (fun _ => 0) 3
     rfl (by decide)⟩

/-- Counterexample to C9: a concrete exhausted run returns the placeholder
body, whose `previous_questions` key is absent (`none` in the model). -/
theorem quiz_exhausted_body_lacks_previous :
    select_question [⟨1, "Q1?", "A1", 1, "1"⟩] [1] (fun _ => 0) 2
      = QuizResult.ok empty_placeholder ∧
    empty_placeholder.previous_questions = none :=
  ⟨by decide, rfl⟩

/-- C9 (amended): every success body of the selection logic has
`success = true` and a `current_question`; in the question-served case
(sizes differ) it also carries `previous_questions` echoing the input,
while in the exhausted case (sizes equal) the `previous_questions` key is
absent and `current_question` is the empty placeholder. -/
theorem quiz_response_fields (pool : List Question)
    (previous_questions : List Nat) (rand : Nat → Nat) (fuel : Nat)
    (resp : QuizResponse)
    (hsel : select_question pool previous_questions rand fuel
      = QuizResult.ok resp) :
    resp.success = true ∧
    (pool.length ≠ previous_questions.length →
      resp.previous_questions = some previous_questions) ∧
    (pool.length = previous_questions.length →
      resp.previous_questions = none ∧
        resp.current_question = ⟨none, "", ""⟩) := by
  by_cases h0 : pool.length = 0
  · rw [select_question, if_pos h0] at hsel
    exact absurd hsel (by simp)
  · by_cases hd : pool.length ≠ previous_questions.length
    · rw [select_question, if_neg h0, if_pos hd] at hsel
      cases hdl : draw_loop pool previous_questions rand fuel 0 with
      | none =>
        simp only [hdl] at hsel
        exact QuizResult.noConfusion hsel
      | some rid =>
        simp only [hdl] at hsel
        cases hg : pool.get? (rid - 1) with
        | none =>
          simp only [hg] at hsel
          exact QuizResult.noConfusion hsel
        | some q =>
          simp only [hg] at hsel
          cases hsel
          exact ⟨rfl, fun _ => rfl, fun heq => absurd heq hd⟩
    · rw [select_question, if_neg h0, if_neg hd] at hsel
      cases hsel
      exact ⟨rfl, fun hcon => absurd hcon hd, fun _ => ⟨rfl, rfl⟩⟩

/-- Witness for C9's amended theorem: a concrete served run. -/
theorem quiz_response_fields_witness :
    select_question [⟨1, "Q1?", "A1", 1, "1"⟩, ⟨2, "Q2?", "A2", 1, "1"⟩] [2]
        (fun _ => 0) 3
      = QuizResult.ok ⟨true, some [2], ⟨some 1, "Q1?", "A1"⟩⟩ ∧
    (⟨true, some [2], ⟨some 1, "Q1?", "A1"⟩⟩ : QuizResponse).success = true ∧
    (⟨true, some [2], ⟨some 1, "Q1?", "A1"⟩⟩ : QuizResponse).previous_questions
      = some [2] := by
  refine ⟨by decide, ?_, ?_⟩
  · exact (quiz_response_fields
      [⟨1, "Q1?", "A1", 1, "1"⟩, ⟨2, "Q2?", "A2", 1, "1"⟩] [2] (fun _ => 0) 3
      ⟨true, some [2], ⟨some 1, "Q1?", "A1"⟩⟩ (by decide)).1
  · exact (quiz_response_fields
      [⟨1, "Q1?", "A1", 1, "1"⟩, ⟨2, "Q2?", "A2", 1, "1"⟩] [2] (fun _ => 0) 3
      ⟨true, some [2], ⟨some 1, "Q1?", "A1"⟩⟩ (by decide)).2.1 (by decide)

end Trivia
